import Mathlib

/-!
Shallow embedding of the Theatre-Seat-Reservation-System repository
(two Rust variants) together with proofs about the claims of its
specification.

The repository contains two largely independent applications:

* `Tauri` embeds `src/src-tauri/src/main.rs`, the command-shell variant:
  an application state holding a movie catalog, a map from movie id to the
  list of booked seat labels, and a ledger of bookings, with the three
  exposed commands `get_movies`, `get_booked_seats` and `make_booking`.

* `Desk` embeds `src/theatre_app/src/main.rs`, the desktop (iced) variant:
  an application state with a show list, a 5x4x5 seat grid, a bookings
  ledger and UI fields, mutated by the `update` message handler.

Modelling conventions:
* Rust `u32`/`usize` values are `Nat`; the one place the source casts with
  `as u32` keeps the truncation as `% 2 ^ 32`; `usize` subtraction (which
  overflows below zero) is modelled by returning `none` (the panic case).
* `f64` prices are carried as `Rat`; no claim performs float arithmetic,
  the values are only stored and copied verbatim.
* A Rust panic (out-of-bounds `Vec` indexing, arithmetic overflow) is
  modelled by `Option`: `Desk.update` returns `none` exactly when the
  source code would panic.
* `Uuid::new_v4()` is a source of tokens external to the program state;
  the generated token is made an explicit argument of the
  `ConfirmBooking` message.  `Local::now()` formatting only produces a
  stored string no claim inspects; it is modelled by `""`.
* File output (`save_ticket`, `export_records`) writes outside the
  program state and is dropped.
-/

/-! ## Command-shell variant (`src/src-tauri/src/main.rs`) -/

namespace Tauri

structure Movie where
  id : Nat
  title : String
  price : Rat
  hall : String
  emoji : String
  time : String
deriving DecidableEq

structure Booking where
  id : Nat
  customer_name : String
  email : String
  movie_title : String
  seats : List String
  total_amount : Rat
  date : String
deriving DecidableEq

/-- The static movie catalog built in `main`. -/
def movies : List Movie :=
  [ { id := 1, title := "Dune: Part Two", price := 12.5, hall := "1", emoji := "D", time := "18:00" },
    { id := 2, title := "Oppenheimer", price := 15.0, hall := "2", emoji := "O", time := "20:30" },
    { id := 3, title := "Barbie", price := 12.0, hall := "3", emoji := "B", time := "19:00" } ]

/-- `AppState`: `booked` models the `HashMap<u32, Vec<String>>` as a total
function (absent keys read as `[]`, exactly what `unwrap_or_default` and
`entry(..).or_insert(Vec::new())` give); `bookings` is the ledger. -/
structure AppState where
  booked : Nat → List String
  bookings : List Booking

/-- The state installed by `main`: empty seat map, empty ledger. -/
def init : AppState := { booked := fun _ => [], bookings := [] }

/-- Command `get_movies`. -/
def get_movies (_s : AppState) : List Movie := movies

/-- Command `get_booked_seats`. -/
def get_booked_seats (s : AppState) (movie_id : Nat) : List String :=
  s.booked movie_id

/-- Command `make_booking`: first scans the requested seats for one that is
already booked for `movie_id` (returning the error for the first such
seat), otherwise extends the booked list, looks up the movie title
(defaulting to `""` when the id is not in the catalog), and appends a new
`Booking` whose id is `(bookings.len() + 1001) as u32`. -/
def make_booking (movie_id : Nat) (name email : String) (seats : List String)
    (total : Rat) (s : AppState) : Except String Booking × AppState :=
  match seats.find? (fun seat => (s.booked movie_id).contains seat) with
  | some seat => (Except.error ("Seat " ++ seat ++ " is no longer available."), s)
  | none =>
    let movie_title := ((movies.find? (fun m => m.id == movie_id)).map Movie.title).getD ""
    let new_booking : Booking :=
      { id := (s.bookings.length + 1001) % 2 ^ 32
        customer_name := name
        email := email
        movie_title := movie_title
        seats := seats
        total_amount := total
        date := "" }
    (Except.ok new_booking,
      { booked := fun m => if m = movie_id then s.booked movie_id ++ seats else s.booked m
        bookings := s.bookings ++ [new_booking] })

/-- The command surface registered in `main` via `generate_handler!`. -/
inductive Cmd where
  | get_movies
  | get_booked_seats (movie_id : Nat)
  | make_booking (movie_id : Nat) (name email : String) (seats : List String) (total : Rat)

/-- State effect of one command invocation (the two getters are read-only). -/
def stepCmd (c : Cmd) (s : AppState) : AppState :=
  match c with
  | .get_movies => s
  | .get_booked_seats _ => s
  | .make_booking movie_id name email seats total =>
      (make_booking movie_id name email seats total s).2

/-- Run a sequence of command invocations. -/
def runCmds : List Cmd → AppState → AppState
  | [], s => s
  | c :: cs, s => runCmds cs (stepCmd c s)

end Tauri

/-! ## Desktop (iced) variant (`src/theatre_app/src/main.rs`) -/

namespace Desk

structure Show where
  id : Nat
  name : String
  date : String
  time : String
  hall : String
  price : Rat
  available_seats : Nat
deriving DecidableEq

structure Booking where
  id : String
  show_id : Nat
  customer_name : String
  seat : String
  booking_time : String
  price : Rat
deriving DecidableEq

structure Seat where
  row : Char
  col : Nat
  is_booked : Bool
  booking_id : Option String
deriving DecidableEq

inductive View where
  | Home
  | ShowSelection
  | Booking
  | CancelBooking
  | ViewSeats
  | Records
  | Statistics
deriving DecidableEq

structure AppState where
  current_view : View
  shows : List Show
  bookings : List Booking
  seats : List (List (List Seat))
  selected_show : Option Nat
  selected_seat : Option (Nat × Nat)
  customer_name : String
  booking_id_input : String
  error_message : Option String
  success_message : Option String
deriving DecidableEq

/-- Messages handled by `update`.  `ConfirmBooking` carries, as an explicit
argument, the token that `Uuid::new_v4().to_string()` produces during that
handler run. -/
inductive Message where
  | ChangeView (view : View)
  | SelectShow (id : Nat)
  | SelectSeat (row col : Nat)
  | CustomerNameChanged (name : String)
  | ConfirmBooking (uuid : String)
  | BookingIdChanged (id : String)
  | CancelBookingConfirm
  | ExportRecords

/-- The state built by `TheatreApp::new()`. -/
def initApp : AppState :=
  { current_view := View.Home
    shows :=
      [ { id := 0, name := "Dune: Part Two", date := "15-03-2024", time := "18:00", hall := "Hall 1", price := 1500, available_seats := 20 },
        { id := 1, name := "Oppenheimer", date := "20-03-2024", time := "20:30", hall := "Hall 2", price := 2250, available_seats := 20 },
        { id := 2, name := "Barbie", date := "22-03-2024", time := "19:00", hall := "Hall 3", price := 2000, available_seats := 20 },
        { id := 3, name := "Deadpool & Wolverine", date := "25-03-2024", time := "21:00", hall := "Hall 4", price := 1500, available_seats := 20 },
        { id := 4, name := "Inside Out 2", date := "28-03-2024", time := "17:30", hall := "Hall 5", price := 1500, available_seats := 20 } ]
    bookings := []
    seats :=
      (List.range 5).map fun _ =>
        (List.range 4).map fun row =>
          (List.range 5).map fun col =>
            { row := Char.ofNat (65 + row), col := col + 1, is_booked := false, booking_id := none }
    selected_show := none
    selected_seat := none
    customer_name := ""
    booking_id_input := ""
    error_message := none
    success_message := none }

/-- Model of Rust `str::trim`: strip whitespace characters from both ends.
(The library `String.trim` does not reduce inside the kernel, which the
concrete-run theorems below need, so the same function is spelled out over
the character list.) -/
def trimStr (s : String) : String :=
  ⟨((s.data.dropWhile Char.isWhitespace).reverse.dropWhile Char.isWhitespace).reverse⟩

/-- Decimal digits of `n`, fuel-indexed so that it reduces structurally. -/
def natDigits : Nat → Nat → List Char
  | 0, _ => []
  | fuel + 1, n =>
    if n < 10 then [Char.ofNat (48 + n)]
    else natDigits fuel (n / 10) ++ [Char.ofNat (48 + n % 10)]

/-- Decimal rendering of a `Nat`, as `format!` prints a `usize`. -/
def natToString (n : Nat) : String := ⟨natDigits (n + 1) n⟩

/-- The first two lines of `update` clear both transient messages. -/
def clearMsgs (s : AppState) : AppState :=
  { s with error_message := none, success_message := none }

/-- Triple-indexed seat lookup `self.seats[i][r][c]`, fallibly. -/
def getSeat? (s : AppState) (i r c : Nat) : Option Seat :=
  (s.seats[i]?).bind fun grid => (grid[r]?).bind fun rowSeats => rowSeats[c]?

/-- One seat of the cancellation sweep: a seat whose `booking_id` matches
the cancelled id is freed, every other seat is kept. -/
def freeSeat (bid : String) (seat : Seat) : Seat :=
  if seat.booking_id = some bid then { seat with is_booked := false, booking_id := none } else seat

/-- `TheatreApp::update`.  Returns `none` exactly when the source would
panic: an out-of-bounds `Vec` index, or the `usize` underflow of
`available_seats -= 1`. -/
def update (m : Message) (s₀ : AppState) : Option AppState :=
  let s := clearMsgs s₀
  match m with
  | .ChangeView v =>
      some { s with current_view := v, customer_name := "", booking_id_input := "",
                    selected_seat := none }
  | .SelectShow id =>
      some { s with selected_show := some id, current_view := View.Booking }
  | .SelectSeat row col =>
      match s.selected_show with
      | none => some s
      | some show_id =>
        match getSeat? s show_id row col with
        | none => none
        | some seat =>
          if seat.is_booked then some s
          else some { s with selected_seat := some (row, col) }
  | .CustomerNameChanged name => some { s with customer_name := name }
  | .ConfirmBooking uuid =>
      match s.selected_show, s.selected_seat with
      | some show_id, some (row, col) =>
        if trimStr s.customer_name = "" then
          some { s with error_message := some "Please enter customer name" }
        else
          match s.seats[show_id]? with
          | none => none
          | some grid =>
            match grid[row]? with
            | none => none
            | some rowSeats =>
              match rowSeats[col]? with
              | none => none
              | some seat =>
                match s.shows[show_id]? with
                | none => none
                | some sh =>
                  if sh.available_seats = 0 then none
                  else
                    let seat' := { seat with is_booked := true, booking_id := some uuid }
                    let booking : Booking :=
                      { id := uuid
                        show_id := show_id
                        customer_name := s.customer_name
                        seat := String.singleton seat.row ++ natToString seat.col
                        booking_time := ""
                        price := sh.price }
                    some { s with
                      seats := s.seats.set show_id (grid.set row (rowSeats.set col seat'))
                      bookings := s.bookings ++ [booking]
                      shows := s.shows.set show_id { sh with available_seats := sh.available_seats - 1 }
                      success_message := some ("Booking confirmed! ID: " ++ uuid)
                      customer_name := ""
                      selected_seat := none }
      | _, _ => some s
  | .BookingIdChanged id => some { s with booking_id_input := id }
  | .CancelBookingConfirm =>
      let booking_id := trimStr s.booking_id_input
      match s.bookings.findIdx? (fun b => b.id == booking_id) with
      | none => some { s with error_message := some "Booking ID not found" }
      | some idx =>
        match s.bookings[idx]? with
        | none => none
        | some b =>
          match s.seats[b.show_id]? with
          | none => none
          | some grid =>
            match s.shows[b.show_id]? with
            | none => none
            | some sh =>
              some { s with
                seats := s.seats.set b.show_id (grid.map (List.map (freeSeat booking_id)))
                bookings := s.bookings.eraseIdx idx
                shows := s.shows.set b.show_id { sh with available_seats := sh.available_seats + 1 }
                success_message := some "Booking cancelled successfully"
                booking_id_input := "" }
  | .ExportRecords =>
      some { s with success_message := some "Records exported to bookings_export.json" }

/-- Run a sequence of messages through `update`, propagating a panic. -/
def runMsgs : List Message → AppState → Option AppState
  | [], s => some s
  | m :: ms, s =>
    match update m s with
    | none => none
    | some s' => runMsgs ms s'

/-- The uuid tokens consumed by the `ConfirmBooking` messages of a list,
in order. -/
def msgUuids : List Message → List String
  | [] => []
  | Message.ConfirmBooking u :: ms => u :: msgUuids ms
  | _ :: ms => msgUuids ms

end Desk

/-! ## Helper lemmas: command-shell variant -/

namespace Tauri

lemma contains_true_iff {l : List String} {a : String} :
    l.contains a = true ↔ a ∈ l := List.elem_iff

/-- A single command never removes ledger entries or booked seats. -/
lemma stepCmd_mono (c : Cmd) (s : AppState) :
    (∃ r, (stepCmd c s).bookings = s.bookings ++ r) ∧
    (∀ mid, ∃ r, (stepCmd c s).booked mid = s.booked mid ++ r) := by
  cases c with
  | get_movies => exact ⟨⟨[], by simp [stepCmd]⟩, fun mid => ⟨[], by simp [stepCmd]⟩⟩
  | get_booked_seats m => exact ⟨⟨[], by simp [stepCmd]⟩, fun mid => ⟨[], by simp [stepCmd]⟩⟩
  | make_booking mid n e seats t =>
    cases hf : seats.find? (fun seat => (s.booked mid).contains seat) with
    | some y =>
      simp only [stepCmd, make_booking, hf]
      exact ⟨⟨[], by simp⟩, fun m => ⟨[], by simp⟩⟩
    | none =>
      simp only [stepCmd, make_booking, hf]
      refine ⟨⟨_, rfl⟩, fun m => ?_⟩
      by_cases hm : m = mid
      · subst hm; exact ⟨seats, by simp⟩
      · exact ⟨[], by simp [hm]⟩

/-- Ledger-id invariant of the command-shell variant: the ids down the
ledger are exactly the successive counter values `(i + 1001) % 2 ^ 32`. -/
def idInv (s : AppState) : Prop :=
  s.bookings.map Booking.id =
    (List.range s.bookings.length).map fun i => (i + 1001) % 2 ^ 32

lemma idInv_init : idInv init := rfl

lemma stepCmd_idInv (c : Cmd) (s : AppState) (h : idInv s) : idInv (stepCmd c s) := by
  cases c with
  | get_movies => exact h
  | get_booked_seats m => exact h
  | make_booking mid n e seats t =>
    cases hf : seats.find? (fun seat => (s.booked mid).contains seat) with
    | some y => simpa only [stepCmd, make_booking, hf] using h
    | none =>
      unfold idInv at h ⊢
      simp only [stepCmd, make_booking, hf]
      rw [List.map_append, h, List.length_append, List.length_singleton, List.range_succ,
        List.map_append]
      rfl

lemma runCmds_idInv (cmds : List Cmd) (s : AppState) (h : idInv s) :
    idInv (runCmds cmds s) := by
  induction cmds generalizing s with
  | nil => exact h
  | cons c cs ih => exact ih (stepCmd c s) (stepCmd_idInv c s h)

lemma nodup_of_idInv (s : AppState) (h : idInv s) (hlen : s.bookings.length ≤ 2 ^ 32) :
    (s.bookings.map Booking.id).Nodup := by
  rw [h]
  refine List.Nodup.map_on ?_ (List.nodup_range _)
  intro x hx y hy hxy
  rw [List.mem_range] at hx hy
  have hx' : x % 2 ^ 32 = x := Nat.mod_eq_of_lt (by omega)
  have hy' : y % 2 ^ 32 = y := Nat.mod_eq_of_lt (by omega)
  have := Nat.ModEq.add_right_cancel' 1001 hxy
  unfold Nat.ModEq at this
  omega

/-- A command sequence that books seat `"A1"` on `n` distinct movie ids;
every call succeeds, so the ledger grows to any requested length. -/
def seqC4 (n : Nat) : List Cmd := (List.range n).map fun i => Cmd.make_booking i "c" "" ["A1"] 0

lemma runCmds_append (cs ds : List Cmd) (s : AppState) :
    runCmds (cs ++ ds) s = runCmds ds (runCmds cs s) := by
  induction cs generalizing s with
  | nil => rfl
  | cons c cs ih => simp [runCmds, ih]

lemma seqC4_spec (n : Nat) :
    (runCmds (seqC4 n) init).bookings.length = n ∧
    ∀ m, n ≤ m → (runCmds (seqC4 n) init).booked m = [] := by
  induction n with
  | zero => exact ⟨rfl, fun m _ => rfl⟩
  | succ k ih =>
    have hseq : seqC4 (k + 1) = seqC4 k ++ [Cmd.make_booking k "c" "" ["A1"] 0] := by
      simp [seqC4, List.range_succ]
    rw [hseq, runCmds_append]
    have hbk : (runCmds (seqC4 k) init).booked k = [] := ih.2 k le_rfl
    have hf : (["A1"] : List String).find?
        (fun seat => ((runCmds (seqC4 k) init).booked k).contains seat) = none := by
      rw [List.find?_eq_none]
      intro x _
      rw [hbk]
      simp
    constructor
    · simp only [runCmds, stepCmd, make_booking, hf]
      simp [ih.1]
    · intro m hm
      have hmk : m ≠ k := by omega
      simp only [runCmds, stepCmd, make_booking, hf]
      simp only [if_neg hmk]
      exact ih.2 m (by omega)

/-- Command execution instrumented with a log of the `(movie_id, seats)`
pairs of the successful bookings, in order; the log supplies the show id
that the stored `Booking` record itself does not keep. -/
def stepCmdLog (c : Cmd) (sl : AppState × List (Nat × List String)) :
    AppState × List (Nat × List String) :=
  match c with
  | .make_booking movie_id name email seats total =>
    match (make_booking movie_id name email seats total sl.1).1 with
    | .ok _ => ((make_booking movie_id name email seats total sl.1).2, sl.2 ++ [(movie_id, seats)])
    | .error _ => ((make_booking movie_id name email seats total sl.1).2, sl.2)
  | _ => sl

def runCmdsLog :
    List Cmd → AppState × List (Nat × List String) → AppState × List (Nat × List String)
  | [], sl => sl
  | c :: cs, sl => runCmdsLog cs (stepCmdLog c sl)

def logInv (sl : AppState × List (Nat × List String)) : Prop :=
  (∀ p ∈ sl.2, ∀ x ∈ p.2, x ∈ sl.1.booked p.1) ∧
  sl.2.Pairwise fun p q => p.1 = q.1 → ∀ x ∈ p.2, x ∉ q.2

lemma stepCmdLog_logInv (c : Cmd) (sl : AppState × List (Nat × List String))
    (h : logInv sl) : logInv (stepCmdLog c sl) := by
  cases c with
  | get_movies => exact h
  | get_booked_seats m => exact h
  | make_booking movie_id name email seats total =>
    cases hf : seats.find? (fun seat => (sl.1.booked movie_id).contains seat) with
    | some y => simpa only [stepCmdLog, make_booking, hf] using h
    | none =>
      have hfree : ∀ x ∈ seats, x ∉ sl.1.booked movie_id := by
        intro x hx hmem
        have := List.find?_eq_none.mp hf x hx
        exact this (contains_true_iff.mpr hmem)
      simp only [stepCmdLog, make_booking, hf]
      constructor
      · intro p hp x hx
        rcases List.mem_append.mp hp with hp | hp
        · have hold := h.1 p hp x hx
          by_cases hm : p.1 = movie_id
          · simp only [hm] at hold ⊢
            simp [hold]
          · simp [hm, hold]
        · simp only [List.mem_singleton] at hp
          subst hp
          simp [hx]
      · rw [List.pairwise_append]
        refine ⟨h.2, by simp, ?_⟩
        intro p hp q hq
        simp only [List.mem_singleton] at hq
        subst hq
        intro hpm x hxp hxs
        have hold := h.1 p hp x hxp
        rw [show p.1 = movie_id from hpm] at hold
        exact hfree x hxs hold

/-- The command-shell half of claim C1 does hold: bookings made for the
same movie id never share a seat label (supporting theorem; the desktop
half of C1 fails, see `C1_desktop_double_booking`). -/
theorem no_double_booking (cmds : List Cmd) :
    ((runCmdsLog cmds (init, [])).2).Pairwise
      fun p q => p.1 = q.1 → ∀ x ∈ p.2, x ∉ q.2 := by
  have hrun : ∀ sl, logInv sl → logInv (runCmdsLog cmds sl) := by
    induction cmds with
    | nil => exact fun sl h => h
    | cons c cs ih => exact fun sl h => ih (stepCmdLog c sl) (stepCmdLog_logInv c sl h)
  exact (hrun (init, []) ⟨by simp, by simp⟩).2

end Tauri

/-! ## Helper lemmas: desktop variant -/

namespace Desk

/-- Every `update` step either leaves the ledger alone, appends one
booking whose id is the uuid of a `ConfirmBooking` message, or erases one
index (cancellation). -/
lemma update_bookings (m : Message) (s s' : AppState) (h : update m s = some s') :
    s'.bookings = s.bookings ∨
    (∃ u b, m = Message.ConfirmBooking u ∧ Booking.id b = u ∧ s'.bookings = s.bookings ++ [b]) ∨
    (∃ i, s'.bookings = s.bookings.eraseIdx i) := by
  cases m with
  | ChangeView v =>
    simp only [update, clearMsgs, Option.some.injEq] at h
    subst h; exact Or.inl rfl
  | SelectShow id =>
    simp only [update, clearMsgs, Option.some.injEq] at h
    subst h; exact Or.inl rfl
  | CustomerNameChanged name =>
    simp only [update, clearMsgs, Option.some.injEq] at h
    subst h; exact Or.inl rfl
  | BookingIdChanged id =>
    simp only [update, clearMsgs, Option.some.injEq] at h
    subst h; exact Or.inl rfl
  | ExportRecords =>
    simp only [update, clearMsgs, Option.some.injEq] at h
    subst h; exact Or.inl rfl
  | SelectSeat row col =>
    simp only [update, clearMsgs] at h
    split at h
    · simp only [Option.some.injEq] at h; subst h; exact Or.inl rfl
    · split at h
      · exact Option.noConfusion h
      · split at h <;> simp only [Option.some.injEq] at h <;> subst h <;> exact Or.inl rfl
  | ConfirmBooking uuid =>
    simp only [update, clearMsgs] at h
    split at h
    · split at h
      · simp only [Option.some.injEq] at h; subst h; exact Or.inl rfl
      · split at h
        · exact Option.noConfusion h
        · split at h
          · exact Option.noConfusion h
          · split at h
            · exact Option.noConfusion h
            · split at h
              · exact Option.noConfusion h
              · split at h
                · exact Option.noConfusion h
                · simp only [Option.some.injEq] at h
                  subst h
                  exact Or.inr (Or.inl ⟨uuid, _, rfl, rfl, rfl⟩)
    · simp only [Option.some.injEq] at h; subst h; exact Or.inl rfl
  | CancelBookingConfirm =>
    simp only [update, clearMsgs] at h
    split at h
    · simp only [Option.some.injEq] at h; subst h; exact Or.inl rfl
    · split at h
      · exact Option.noConfusion h
      · split at h
        · exact Option.noConfusion h
        · split at h
          · exact Option.noConfusion h
          · simp only [Option.some.injEq] at h
            subst h
            exact Or.inr (Or.inr ⟨_, rfl⟩)

lemma msgUuids_sublist (m : Message) (ms : List Message) :
    (msgUuids ms).Sublist (msgUuids (m :: ms)) := by
  cases m <;> simp [msgUuids]

/-- If the uuid tokens fed to `ConfirmBooking` are pairwise distinct and
fresh for the starting ledger, booking ids stay pairwise distinct. -/
lemma runMsgs_nodup_aux (msgs : List Message) :
    ∀ (s s' : AppState), runMsgs msgs s = some s' →
    (msgUuids msgs).Nodup →
    (∀ u ∈ msgUuids msgs, ∀ b ∈ s.bookings, b.id ≠ u) →
    (s.bookings.map Booking.id).Nodup →
    (s'.bookings.map Booking.id).Nodup := by
  induction msgs with
  | nil =>
    intro s s' h _ _ hn
    simp only [runMsgs, Option.some.injEq] at h
    subst h; exact hn
  | cons m ms ih =>
    intro s s' h hnd hfresh hn
    simp only [runMsgs] at h
    cases hu : update m s with
    | none => rw [hu] at h; exact Option.noConfusion h
    | some s₁ =>
      rw [hu] at h
      have hsub := msgUuids_sublist m ms
      rcases update_bookings m s s₁ hu with heq | ⟨u, b, hm, hb, heq⟩ | ⟨i, heq⟩
      · exact ih s₁ s' h (hsub.nodup hnd)
          (fun u' hu' b' hb' => hfresh u' (hsub.subset hu') b' (heq ▸ hb'))
          (heq ▸ hn)
      · subst hm
        simp only [msgUuids, List.nodup_cons] at hnd
        have hfresh' : ∀ u' ∈ msgUuids ms, ∀ b' ∈ s.bookings, Booking.id b' ≠ u' :=
          fun u' hu' b' hb' => hfresh u' (by simp [msgUuids, hu']) b' hb'
        have hufresh : ∀ b' ∈ s.bookings, Booking.id b' ≠ u :=
          fun b' hb' => hfresh u (by simp [msgUuids]) b' hb'
        refine ih s₁ s' h hnd.2 ?_ ?_
        · intro u' hu' b' hb'
          rw [heq, List.mem_append] at hb'
          rcases hb' with hb' | hb'
          · exact hfresh' u' hu' b' hb'
          · simp only [List.mem_singleton] at hb'
            subst hb'
            rw [hb]
            intro hc
            exact hnd.1 (hc ▸ hu')
        · rw [heq, List.map_append, List.nodup_append]
          refine ⟨hn, by simp, ?_⟩
          intro x hx hx1
          simp only [List.map_cons, List.map_nil, List.mem_singleton] at hx1
          subst hx1
          rw [List.mem_map] at hx
          obtain ⟨b', hb', hid⟩ := hx
          exact hufresh b' hb' (hb ▸ hid)
      · exact ih s₁ s' h (hsub.nodup hnd)
          (fun u' hu' b' hb' =>
            hfresh u' (hsub.subset hu') b' ((List.eraseIdx_sublist _ i).subset (heq ▸ hb')))
          (heq ▸ ((List.eraseIdx_sublist _ i).map Booking.id).nodup hn)

lemma findIdx?_concat_eq_length {α : Type} (p : α → Bool) (l : List α) (x : α)
    (hl : ∀ y ∈ l, p y = false) (hx : p x = true) :
    (l ++ [x]).findIdx? p = some l.length := by
  induction l with
  | nil => simp [List.findIdx?_cons, hx]
  | cons a l ih =>
    have ha : p a = false := hl a (by simp)
    simp [List.findIdx?_cons, ha, ih (fun y hy => hl y (by simp [hy]))]

/-- What `CancelBookingConfirm` does when the id resolves: it removes the
found ledger index, frees exactly the seats of that show whose
`booking_id` field carries the cancelled id, and leaves every other show
and every other seat untouched. -/
lemma cancel_spec (s : AppState) (bid : String) (idx : Nat) (b : Booking)
    (grid : List (List Seat)) (sh : Show)
    (hin : trimStr s.booking_id_input = bid)
    (hfind : s.bookings.findIdx? (fun b' => b'.id == bid) = some idx)
    (hb : s.bookings[idx]? = some b)
    (hg : s.seats[b.show_id]? = some grid)
    (hsh : s.shows[b.show_id]? = some sh) :
    ∃ s', update Message.CancelBookingConfirm s = some s' ∧
      s'.bookings = s.bookings.eraseIdx idx ∧
      (∀ j, j ≠ b.show_id → s'.seats[j]? = s.seats[j]?) ∧
      (∀ r c st, getSeat? s b.show_id r c = some st →
        getSeat? s' b.show_id r c = some (freeSeat bid st)) ∧
      (∀ j, j ≠ b.show_id → s'.shows[j]? = s.shows[j]?) := by
  have hlt : b.show_id < s.seats.length := (List.getElem?_eq_some.mp hg).1
  refine ⟨{ s with
      seats := s.seats.set b.show_id (grid.map (List.map (freeSeat bid)))
      bookings := s.bookings.eraseIdx idx
      shows := s.shows.set b.show_id { sh with available_seats := sh.available_seats + 1 }
      success_message := some "Booking cancelled successfully"
      booking_id_input := ""
      error_message := none }, ?_, rfl, ?_, ?_, ?_⟩
  · simp only [update, clearMsgs, hin, hfind, hb, hg, hsh]
  · intro j hj
    exact List.getElem?_set_ne (fun h => hj h.symm)
  · intro r c st hst
    simp only [getSeat?, hg, Option.some_bind] at hst
    simp only [getSeat?, List.getElem?_set_self hlt, Option.some_bind]
    cases hr : grid[r]? with
    | none =>
      rw [hr, Option.none_bind] at hst
      exact Option.noConfusion hst
    | some rowSeats =>
      rw [hr, Option.some_bind] at hst
      rw [List.getElem?_map, hr, Option.map_some', Option.some_bind, List.getElem?_map]
      cases hc : rowSeats[c]? with
      | none => rw [hc] at hst; exact Option.noConfusion hst
      | some st' =>
        rw [hc] at hst
        cases hst
        rfl
  · intro j hj
    exact List.getElem?_set_ne (fun h => hj h.symm)

/-- What `ConfirmBooking` does when a show and a seat are selected, the
name is non-blank, all the indices resolve and `available_seats` is
positive: the full successor state, spelled out. -/
lemma confirm_spec (s : AppState) (sid r c : Nat) (u : String)
    (grid : List (List Seat)) (rowSeats : List Seat) (st : Seat) (sh : Show)
    (hsid : s.selected_show = some sid)
    (hsel : s.selected_seat = some (r, c))
    (hname : ¬ trimStr s.customer_name = "")
    (hg : s.seats[sid]? = some grid)
    (hr : grid[r]? = some rowSeats)
    (hc : rowSeats[c]? = some st)
    (hsh : s.shows[sid]? = some sh)
    (hav : ¬ sh.available_seats = 0) :
    update (Message.ConfirmBooking u) s = some
      { s with
        seats := s.seats.set sid (grid.set r (rowSeats.set c
          { st with is_booked := true, booking_id := some u }))
        bookings := s.bookings ++
          [({ id := u, show_id := sid, customer_name := s.customer_name,
              seat := String.singleton st.row ++ natToString st.col, booking_time := "",
              price := sh.price } : Booking)]
        shows := s.shows.set sid { sh with available_seats := sh.available_seats - 1 }
        success_message := some ("Booking confirmed! ID: " ++ u)
        customer_name := ""
        selected_seat := none
        error_message := none } := by
  simp only [update, clearMsgs, hsid, hsel, hg, hr, hc, hsh, if_neg hname, if_neg hav]

end Desk

/-! ## Claim C1 -/

/-- The message trace that double-books grid seat `A1` of show 0 in the
desktop variant: Alice books it; then a seat is selected for show 1, the
selected show is switched back to show 0 (which does not clear the stale
seat selection), and Bob's `ConfirmBooking` books the already-booked seat
again without any `is_booked` check. -/
def msgsX : List Desk.Message :=
  [ .SelectShow 0, .SelectSeat 0 0, .CustomerNameChanged "Alice", .ConfirmBooking "id-1",
    .SelectShow 1, .SelectSeat 0 0, .CustomerNameChanged "Bob", .SelectShow 0,
    .ConfirmBooking "id-2" ]

/-- Claim C1: refuted for the desktop variant (code bug).  Running `msgsX`
from the initial state leaves two distinct live bookings (`id-1`, `id-2`)
of the same show 0 both holding seat `A1`: `ConfirmBooking` books a grid
seat while it is already booked, via a seat selection made before the
selected show was changed.  (The command-shell half of the claim does
hold: `Tauri.no_double_booking`.) -/
theorem C1_desktop_double_booking :
    (Desk.runMsgs msgsX Desk.initApp).map
        (fun s => s.bookings.map fun b => (b.id, b.show_id, b.seat)) =
      some [("id-1", 0, "A1"), ("id-2", 0, "A1")] := by
  decide

/-! ## Claim C2 -/

/-- Claim C2: `make_booking` is all-or-nothing.  Whenever some requested
seat is already booked for the movie, the call returns the
`Seat .. is no longer available.` error for the first such seat and the
returned state is exactly the input state: no seat map entry and no
ledger entry changes. -/
theorem C2_make_booking_all_or_nothing (movie_id : Nat) (name email : String)
    (seats : List String) (total : Rat) (s : Tauri.AppState)
    (h : ∃ x ∈ seats, x ∈ s.booked movie_id) :
    (Tauri.make_booking movie_id name email seats total s).2 = s ∧
    ∃ x ∈ seats, x ∈ s.booked movie_id ∧
      (Tauri.make_booking movie_id name email seats total s).1 =
        Except.error ("Seat " ++ x ++ " is no longer available.") := by
  obtain ⟨x, hx, hb⟩ := h
  obtain ⟨y, hy⟩ : ∃ y, seats.find? (fun seat => (s.booked movie_id).contains seat) = some y := by
    cases hf : seats.find? (fun seat => (s.booked movie_id).contains seat) with
    | some y => exact ⟨y, rfl⟩
    | none =>
      rw [List.find?_eq_none] at hf
      exact absurd (Tauri.contains_true_iff.mpr hb) (hf x hx)
  have hmem := List.mem_of_find?_eq_some hy
  have hpy := Tauri.contains_true_iff.mp (List.find?_some hy)
  exact ⟨by simp only [Tauri.make_booking, hy], y, hmem, hpy,
    by simp only [Tauri.make_booking, hy]⟩

/-- State with seat `A1` of movie 1 already booked, for the C2 witness. -/
def sW : Tauri.AppState :=
  { booked := fun m => if m = 1 then ["A1"] else [], bookings := [] }

/-- Witness for C2 at a concrete conflicting request. -/
theorem C2_make_booking_all_or_nothing_witness :
    (Tauri.make_booking 1 "Bob" "" ["A1", "A2"] 25 sW).2 = sW ∧
    ∃ x ∈ ["A1", "A2"], x ∈ sW.booked 1 ∧
      (Tauri.make_booking 1 "Bob" "" ["A1", "A2"] 25 sW).1 =
        Except.error ("Seat " ++ x ++ " is no longer available.") :=
  C2_make_booking_all_or_nothing 1 "Bob" "" ["A1", "A2"] 25 sW ⟨"A1", by decide, by decide⟩

/-! ## Claim C3 -/

/-- Claim C3 as amended: cancelling an existing booking removes the first
ledger entry carrying that id and frees exactly the grid seats of its show
whose `booking_id` field equals that id (under normal operation those are
exactly the seats the booking held); every other show's seat map, every
seat carrying a different id, and the rest of the ledger are unchanged. -/
theorem C3_cancel_frees_marked_seats (s : Desk.AppState) (bid : String) (idx : Nat)
    (b : Desk.Booking) (grid : List (List Desk.Seat)) (sh : Desk.Show)
    (hin : Desk.trimStr s.booking_id_input = bid)
    (hfind : s.bookings.findIdx? (fun b' => b'.id == bid) = some idx)
    (hb : s.bookings[idx]? = some b)
    (hg : s.seats[b.show_id]? = some grid)
    (hsh : s.shows[b.show_id]? = some sh) :
    ∃ s', Desk.update Desk.Message.CancelBookingConfirm s = some s' ∧
      s'.bookings = s.bookings.eraseIdx idx ∧
      (∀ j, j ≠ b.show_id → s'.seats[j]? = s.seats[j]?) ∧
      (∀ r c st, Desk.getSeat? s b.show_id r c = some st →
        Desk.getSeat? s' b.show_id r c = some (Desk.freeSeat bid st)) ∧
      (∀ j, j ≠ b.show_id → s'.shows[j]? = s.shows[j]?) :=
  Desk.cancel_spec s bid idx b grid sh hin hfind hb hg hsh

/-- The double-booking trace followed by cancelling Alice's booking. -/
def msgsY : List Desk.Message :=
  msgsX ++ [.BookingIdChanged "id-1", .CancelBookingConfirm]

/-- Counterexample to C3 as stated: in the reachable state produced by
`msgsX`, Alice's booking `id-1` holds seat `A1` of show 0, but the seat's
`booking_id` was overwritten by `id-2`; cancelling `id-1` removes Alice's
booking from the ledger yet seat `A1` stays booked — the seats the
booking held are not freed. -/
theorem C3_counterexample_stale_seat :
    (Desk.runMsgs msgsY Desk.initApp).map
        (fun s => ((Desk.getSeat? s 0 0 0).map Desk.Seat.is_booked,
          s.bookings.map Desk.Booking.id)) =
      some (some true, ["id-2"]) := by
  decide

/-- A ledger entry for the C3 witness. -/
def bkC3 : Desk.Booking :=
  { id := "u-1", show_id := 0, customer_name := "Ann", seat := "A1", booking_time := "",
    price := 1500 }

/-- State holding `bkC3` with its id typed into the cancel box. -/
def sC3 : Desk.AppState :=
  { Desk.initApp with bookings := [bkC3], booking_id_input := "u-1" }

/-- The initial 4x5 grid of one show (as built by `TheatreApp::new`). -/
def gridC3 : List (List Desk.Seat) :=
  (List.range 4).map fun row =>
    (List.range 5).map fun col =>
      { row := Char.ofNat (65 + row), col := col + 1, is_booked := false, booking_id := none }

/-- Show 0's record, for the C3 and C5 witnesses. -/
def showC3 : Desk.Show :=
  { id := 0, name := "Dune: Part Two", date := "15-03-2024", time := "18:00",
    hall := "Hall 1", price := 1500, available_seats := 20 }

/-- Witness for the amended C3 at a concrete state. -/
theorem C3_cancel_frees_marked_seats_witness :
    ∃ s', Desk.update Desk.Message.CancelBookingConfirm sC3 = some s' ∧
      s'.bookings = sC3.bookings.eraseIdx 0 ∧
      (∀ j, j ≠ bkC3.show_id → s'.seats[j]? = sC3.seats[j]?) ∧
      (∀ r c st, Desk.getSeat? sC3 bkC3.show_id r c = some st →
        Desk.getSeat? s' bkC3.show_id r c = some (Desk.freeSeat "u-1" st)) ∧
      (∀ j, j ≠ bkC3.show_id → s'.shows[j]? = sC3.shows[j]?) :=
  C3_cancel_frees_marked_seats sC3 "u-1" 0 bkC3 gridC3 showC3 (by decide) (by decide)
    (by decide) (by decide) (by decide)

/-! ## Claim C4 -/

/-- Claim C4 as amended: booking ids are pairwise distinct — in the
command-shell variant for every command sequence whose ledger stays within
`2 ^ 32` entries (the id is `(ledger_length + 1001) as u32`, and no cancel
command exists, so the length only grows), and in the desktop variant for
every message run whose generated UUID tokens are pairwise distinct. -/
theorem C4_id_uniqueness (cmds : List Tauri.Cmd) (msgs : List Desk.Message)
    (s' : Desk.AppState)
    (hlen : (Tauri.runCmds cmds Tauri.init).bookings.length ≤ 2 ^ 32)
    (hnd : (Desk.msgUuids msgs).Nodup)
    (hrun : Desk.runMsgs msgs Desk.initApp = some s') :
    ((Tauri.runCmds cmds Tauri.init).bookings.map Tauri.Booking.id).Nodup ∧
    (s'.bookings.map Desk.Booking.id).Nodup := by
  constructor
  · exact Tauri.nodup_of_idInv _
      (Tauri.runCmds_idInv cmds Tauri.init Tauri.idInv_init) hlen
  · exact Desk.runMsgs_nodup_aux msgs Desk.initApp s' hrun hnd
      (fun u _ b hb => absurd hb (by simp [Desk.initApp])) (by simp [Desk.initApp])

/-- Counterexample to C4 as stated for the command-shell variant: after
`2 ^ 32 + 1` successful bookings the `as u32` cast wraps, and the ids at
ledger positions `0` and `2 ^ 32` are both `1001`; so N successful
bookings do not always produce N pairwise-distinct ids. -/
theorem C4_counterexample_u32_wraparound :
    ¬ ((Tauri.runCmds (Tauri.seqC4 (2 ^ 32 + 1)) Tauri.init).bookings.map
        Tauri.Booking.id).Nodup := by
  have hinv := Tauri.runCmds_idInv (Tauri.seqC4 (2 ^ 32 + 1)) Tauri.init Tauri.idInv_init
  have hlen := (Tauri.seqC4_spec (2 ^ 32 + 1)).1
  rw [Tauri.idInv, hlen] at hinv
  rw [hinv, List.nodup_map_iff_inj_on (List.nodup_range _)]
  intro hnd
  have h0 : (0 : Nat) ∈ List.range (2 ^ 32 + 1) := by
    rw [List.mem_range]; omega
  have h1 : (2 ^ 32 : Nat) ∈ List.range (2 ^ 32 + 1) := by
    rw [List.mem_range]; omega
  have hfeq : ((0 : Nat) + 1001) % 2 ^ 32 = ((2 ^ 32 : Nat) + 1001) % 2 ^ 32 := by
    simp [Nat.add_mod_left]
  have := hnd 0 h0 (2 ^ 32) h1 hfeq
  omega

/-- Message run for the C4 witness: two bookings with distinct tokens. -/
def msgsW : List Desk.Message :=
  [ .SelectShow 0, .SelectSeat 0 0, .CustomerNameChanged "Ann", .ConfirmBooking "u-1",
    .SelectShow 0, .SelectSeat 0 1, .CustomerNameChanged "Ben", .ConfirmBooking "u-2" ]

/-- Witness for the amended C4 at concrete runs of both variants. -/
theorem C4_id_uniqueness_witness :
    ((Tauri.runCmds [Tauri.Cmd.make_booking 1 "Alice" "e" ["A1"] 25,
        Tauri.Cmd.make_booking 1 "Bob" "e" ["A2"] 25] Tauri.init).bookings.map
      Tauri.Booking.id).Nodup ∧
    (((Desk.runMsgs msgsW Desk.initApp).getD Desk.initApp).bookings.map
      Desk.Booking.id).Nodup :=
  C4_id_uniqueness _ msgsW _ (by decide) (by decide) (by decide)

/-! ## Claim C5 -/

/-- Claim C5: a successful booking immediately followed by cancellation
with the returned id (typed into the cancel box) restores the booked grid
seat to unbooked and leaves the ledger exactly as before, so the booking
no longer appears; the generated uuid is assumed fresh for the current
ledger (`hfresh`) and free of surrounding whitespace (`hu`), as
`Uuid::new_v4().to_string()` tokens are. -/
theorem C5_cancellation_round_trip (s : Desk.AppState) (sid r c : Nat) (u : String)
    (grid : List (List Desk.Seat)) (rowSeats : List Desk.Seat) (st : Desk.Seat)
    (sh : Desk.Show)
    (hsid : s.selected_show = some sid)
    (hsel : s.selected_seat = some (r, c))
    (hname : ¬ Desk.trimStr s.customer_name = "")
    (hg : s.seats[sid]? = some grid)
    (hr : grid[r]? = some rowSeats)
    (hc : rowSeats[c]? = some st)
    (hsh : s.shows[sid]? = some sh)
    (hav : ¬ sh.available_seats = 0)
    (hu : Desk.trimStr u = u)
    (hfresh : ∀ b ∈ s.bookings, b.id ≠ u) :
    ∃ s', Desk.runMsgs [Desk.Message.ConfirmBooking u, Desk.Message.BookingIdChanged u,
        Desk.Message.CancelBookingConfirm] s = some s' ∧
      (Desk.getSeat? s' sid r c).map Desk.Seat.is_booked = some false ∧
      s'.bookings = s.bookings := by
  have hltseats : sid < s.seats.length := (List.getElem?_eq_some.mp hg).1
  have hltgrid : r < grid.length := (List.getElem?_eq_some.mp hr).1
  have hltrow : c < rowSeats.length := (List.getElem?_eq_some.mp hc).1
  have h1 := Desk.confirm_spec s sid r c u grid rowSeats st sh hsid hsel hname hg hr hc hsh hav
  generalize hs1 : ({ s with
        seats := s.seats.set sid (grid.set r (rowSeats.set c
          { st with is_booked := true, booking_id := some u }))
        bookings := s.bookings ++
          [({ id := u, show_id := sid, customer_name := s.customer_name,
              seat := String.singleton st.row ++ Desk.natToString st.col, booking_time := "",
              price := sh.price } : Desk.Booking)]
        shows := s.shows.set sid { sh with available_seats := sh.available_seats - 1 }
        success_message := some ("Booking confirmed! ID: " ++ u)
        customer_name := ""
        selected_seat := none
        error_message := none } : Desk.AppState) = s₁ at h1
  have h2 : Desk.update (Desk.Message.BookingIdChanged u) s₁ = some
      { s₁ with booking_id_input := u, error_message := none, success_message := none } := by
    simp only [Desk.update, Desk.clearMsgs]
  have hbk2 : ({ s₁ with booking_id_input := u, error_message := none, success_message := none } : Desk.AppState).bookings = s.bookings ++
      [({ id := u, show_id := sid, customer_name := s.customer_name,
          seat := String.singleton st.row ++ Desk.natToString st.col, booking_time := "",
          price := sh.price } : Desk.Booking)] := by
    rw [← hs1]
  have hseats2 : ({ s₁ with booking_id_input := u, error_message := none, success_message := none } : Desk.AppState).seats =
      s.seats.set sid (grid.set r (rowSeats.set c
        { st with is_booked := true, booking_id := some u })) := by
    rw [← hs1]
  have hshows2 : ({ s₁ with booking_id_input := u, error_message := none, success_message := none } : Desk.AppState).shows =
      s.shows.set sid { sh with available_seats := sh.available_seats - 1 } := by
    rw [← hs1]
  have hinput2 : Desk.trimStr ({ s₁ with booking_id_input := u, error_message := none, success_message := none } : Desk.AppState).booking_id_input = u := hu
  have hfind2 : ({ s₁ with booking_id_input := u, error_message := none, success_message := none } : Desk.AppState).bookings.findIdx? (fun b' => b'.id == u) =
      some s.bookings.length := by
    rw [hbk2]
    refine Desk.findIdx?_concat_eq_length _ _ _ ?_ (beq_self_eq_true u)
    intro y hy
    exact beq_eq_false_iff_ne.mpr (hfresh y hy)
  have hgetbk : ({ s₁ with booking_id_input := u, error_message := none, success_message := none } : Desk.AppState).bookings[s.bookings.length]? = some
      ({ id := u, show_id := sid, customer_name := s.customer_name,
         seat := String.singleton st.row ++ Desk.natToString st.col, booking_time := "",
         price := sh.price } : Desk.Booking) := by
    rw [hbk2]
    exact List.getElem?_concat_length _ _
  have hg2 : ({ s₁ with booking_id_input := u, error_message := none, success_message := none } : Desk.AppState).seats[sid]? = some (grid.set r (rowSeats.set c
        { st with is_booked := true, booking_id := some u })) := by
    rw [hseats2]
    exact List.getElem?_set_self hltseats
  have hsh2 : ({ s₁ with booking_id_input := u, error_message := none, success_message := none } : Desk.AppState).shows[sid]? = some
      { sh with available_seats := sh.available_seats - 1 } := by
    rw [hshows2]
    exact List.getElem?_set_self (List.getElem?_eq_some.mp hsh).1
  obtain ⟨s₃, hupd3, hbk3, _, hseat3, _⟩ := Desk.cancel_spec _ u s.bookings.length _ _ _
    hinput2 hfind2 hgetbk hg2 hsh2
  refine ⟨s₃, ?_, ?_, ?_⟩
  · simp only [Desk.runMsgs, h1, h2, hupd3]
  · have hseats1 : s₁.seats = s.seats.set sid (grid.set r (rowSeats.set c
        { st with is_booked := true, booking_id := some u })) := by
      rw [← hs1]
    have hst2 : Desk.getSeat? ({ s₁ with booking_id_input := u, error_message := none, success_message := none } : Desk.AppState) sid r c = some
        { st with is_booked := true, booking_id := some u } := by
      simp only [Desk.getSeat?, hseats1, List.getElem?_set_self hltseats, Option.some_bind,
        List.getElem?_set_self hltgrid, Option.some_bind, List.getElem?_set_self hltrow]
    have := hseat3 r c _ hst2
    rw [this]
    simp [Desk.freeSeat]
  · rw [hbk3, hbk2, List.eraseIdx_append_of_length_le le_rfl]
    simp

/-- State for the C5 witness: show 0 and seat `(0, 0)` selected, a
non-blank customer name entered. -/
def sC5 : Desk.AppState :=
  { Desk.initApp with selected_show := some 0, selected_seat := some (0, 0),
                      customer_name := "Alice" }

/-- Row `A` of the initial grid, for the C5 witness. -/
def rowC5 : List Desk.Seat :=
  (List.range 5).map fun col =>
    { row := Char.ofNat 65, col := col + 1, is_booked := false, booking_id := none }

/-- Seat `A1` of the initial grid, for the C5 witness. -/
def seatC5 : Desk.Seat :=
  { row := Char.ofNat 65, col := 1, is_booked := false, booking_id := none }

/-- Witness for C5 at a concrete state and token. -/
theorem C5_cancellation_round_trip_witness :
    ∃ s', Desk.runMsgs [Desk.Message.ConfirmBooking "u-7",
        Desk.Message.BookingIdChanged "u-7", Desk.Message.CancelBookingConfirm] sC5 =
        some s' ∧
      (Desk.getSeat? s' 0 0 0).map Desk.Seat.is_booked = some false ∧
      s'.bookings = sC5.bookings :=
  C5_cancellation_round_trip sC5 0 0 0 "u-7" gridC3 rowC5 seatC5 showC3 (by decide)
    (by decide) (by decide) (by decide) (by decide) (by decide) (by decide) (by decide)
    (by decide) (by decide)

/-! ## Claim C6 -/

/-- Counterexample to C6 as stated: `make_booking` with `movie_id = 999`
(not in the three-movie catalog) does not return a `ShowNotFound` error —
it succeeds, and a booking (with an empty `movie_title`) is appended to
the ledger. -/
theorem C6_counterexample_show_not_found :
    (Tauri.make_booking 999 "Alice" "a@b.c" ["A1"] 25 Tauri.init).1.toOption =
      some { id := 1001, customer_name := "Alice", email := "a@b.c", movie_title := "",
             seats := ["A1"], total_amount := 25, date := "" } ∧
    (Tauri.make_booking 999 "Alice" "a@b.c" ["A1"] 25 Tauri.init).2.bookings.length = 1 := by
  decide

/-- Claim C6 as amended: a show id outside the catalog is not rejected;
when the requested seats are free the call succeeds, the stored booking
has an empty `movie_title` (`unwrap_or_default`), and it is appended to
the ledger. -/
theorem C6_unknown_show_still_books (movie_id : Nat) (name email : String)
    (seats : List String) (total : Rat) (s : Tauri.AppState)
    (hmid : ∀ m ∈ Tauri.movies, m.id ≠ movie_id)
    (hfree : ∀ x ∈ seats, x ∉ s.booked movie_id) :
    ∃ b, (Tauri.make_booking movie_id name email seats total s).1 = Except.ok b ∧
      b.movie_title = "" ∧
      (Tauri.make_booking movie_id name email seats total s).2.bookings =
        s.bookings ++ [b] := by
  have hf : seats.find? (fun seat => (s.booked movie_id).contains seat) = none :=
    List.find?_eq_none.mpr fun x hx h => hfree x hx (Tauri.contains_true_iff.mp h)
  have hm : Tauri.movies.find? (fun m => m.id == movie_id) = none :=
    List.find?_eq_none.mpr fun m hm => by simp [hmid m hm]
  simp only [Tauri.make_booking, hf, hm, Option.map_none', Option.getD_none]
  exact ⟨_, rfl, rfl, rfl⟩

/-- Witness for the amended C6 at a concrete unknown show id. -/
theorem C6_unknown_show_still_books_witness :
    ∃ b, (Tauri.make_booking 999 "Dana" "" ["C1"] 25 Tauri.init).1 = Except.ok b ∧
      b.movie_title = "" ∧
      (Tauri.make_booking 999 "Dana" "" ["C1"] 25 Tauri.init).2.bookings =
        Tauri.init.bookings ++ [b] :=
  C6_unknown_show_still_books 999 "Dana" "" ["C1"] 25 Tauri.init (by decide) (by decide)

/-! ## Claim C7 -/

/-- Counterexample to C7 as stated: `make_booking` with a blank customer
name and an empty seat list does not return an `InvalidInput` error — it
succeeds and appends a booking (with empty name and empty seats) to the
ledger, so the Ledger changes. -/
theorem C7_counterexample_no_validation :
    (Tauri.make_booking 1 "" "" [] 0 Tauri.init).1.toOption =
      some { id := 1001, customer_name := "", email := "", movie_title := "Dune: Part Two",
             seats := [], total_amount := 0, date := "" } ∧
    (Tauri.make_booking 1 "" "" [] 0 Tauri.init).2.bookings.length = 1 := by
  decide

/-- Claim C7 as amended: only the desktop variant validates, and only the
name.  There, `ConfirmBooking` with a blank (empty or whitespace-only)
customer name sets the error message and leaves seats and ledger
unchanged.  The command-shell `make_booking` performs no input
validation: a request with a blank name or an empty seat list succeeds
(when no requested seat conflicts) and a booking is appended. -/
theorem C7_blank_input_handling :
    (∀ (s : Desk.AppState) (sid r c : Nat) (uuid : String),
      s.selected_show = some sid → s.selected_seat = some (r, c) →
      Desk.trimStr s.customer_name = "" →
      Desk.update (Desk.Message.ConfirmBooking uuid) s =
        some { s with error_message := some "Please enter customer name",
                      success_message := none }) ∧
    (∀ (s : Tauri.AppState) (movie_id : Nat) (name email : String)
        (seats : List String) (total : Rat),
      (Desk.trimStr name = "" ∨ seats = []) →
      (∀ x ∈ seats, x ∉ s.booked movie_id) →
      ∃ b, (Tauri.make_booking movie_id name email seats total s).1 = Except.ok b ∧
        (Tauri.make_booking movie_id name email seats total s).2.bookings =
          s.bookings ++ [b]) := by
  constructor
  · intro s sid r c uuid h1 h2 h3
    simp only [Desk.update, Desk.clearMsgs, h1, h2, h3]
    simp
  · intro s movie_id name email seats total _ hfree
    have hf : seats.find? (fun seat => (s.booked movie_id).contains seat) = none :=
      List.find?_eq_none.mpr fun x hx h => hfree x hx (Tauri.contains_true_iff.mp h)
    simp only [Tauri.make_booking, hf]
    exact ⟨_, rfl, rfl⟩

/-- Desktop state with a whitespace-only customer name, for the C7 witness. -/
def sBlank : Desk.AppState :=
  { Desk.initApp with selected_show := some 0, selected_seat := some (0, 0),
                      customer_name := "  " }

/-- Witness for the amended C7 at concrete blank inputs in both variants. -/
theorem C7_blank_input_handling_witness :
    Desk.update (Desk.Message.ConfirmBooking "u9") sBlank =
      some { sBlank with error_message := some "Please enter customer name",
                         success_message := none } ∧
    ∃ b, (Tauri.make_booking 2 "" "" [] 0 Tauri.init).1 = Except.ok b ∧
      (Tauri.make_booking 2 "" "" [] 0 Tauri.init).2.bookings =
        Tauri.init.bookings ++ [b] :=
  ⟨C7_blank_input_handling.1 sBlank 0 0 0 "u9" (by decide) (by decide) (by decide),
   C7_blank_input_handling.2 Tauri.init 2 "" "" [] 0 (Or.inl (by decide)) (by decide)⟩

/-! ## Claim C8 -/

/-- Counterexample to C8 as stated: the request `["A1", "A1"]` is accepted
on a fresh movie (the conflict check only compares against seats already
booked, not within the request), and the stored booking's seats contain
`"A1"` twice — the ledger holds a booking whose seats are not
duplicate-free. -/
theorem C8_counterexample_duplicate_seats :
    ¬ (∀ b ∈ (Tauri.make_booking 1 "Dave" "" ["A1", "A1"] 25 Tauri.init).2.bookings,
        b.seats ≠ [] ∧ b.seats.Nodup) := by
  decide

/-- Claim C8 as amended: a successful `make_booking` stores the request's
seat list verbatim, so a stored booking's seats are non-empty and
duplicate-free exactly when the request's list is (no normalisation or
within-request uniqueness check occurs). -/
theorem C8_booking_stores_request_verbatim (movie_id : Nat) (name email : String)
    (seats : List String) (total : Rat) (s : Tauri.AppState) (b : Tauri.Booking)
    (h : (Tauri.make_booking movie_id name email seats total s).1 = Except.ok b) :
    b.seats = seats ∧
    (Tauri.make_booking movie_id name email seats total s).2.bookings =
      s.bookings ++ [b] := by
  cases hf : seats.find? (fun seat => (s.booked movie_id).contains seat) with
  | some y =>
    simp only [Tauri.make_booking, hf] at h
    exact Except.noConfusion h
  | none =>
    simp only [Tauri.make_booking, hf, Except.ok.injEq] at h
    subst h
    exact ⟨rfl, by simp only [Tauri.make_booking, hf]⟩

/-- Witness for the amended C8 at a concrete request. -/
theorem C8_booking_stores_request_verbatim_witness :
    ({ id := 1001, customer_name := "Carol", email := "", movie_title := "Dune: Part Two",
       seats := ["B1", "B2"], total_amount := 25, date := "" } : Tauri.Booking).seats =
        ["B1", "B2"] ∧
    (Tauri.make_booking 1 "Carol" "" ["B1", "B2"] 25 Tauri.init).2.bookings =
      Tauri.init.bookings ++
        [{ id := 1001, customer_name := "Carol", email := "", movie_title := "Dune: Part Two",
           seats := ["B1", "B2"], total_amount := 25, date := "" }] :=
  C8_booking_stores_request_verbatim 1 "Carol" "" ["B1", "B2"] 25 Tauri.init _ (by rfl)

/-! ## Claim C9 -/

/-- Claim C9: refuted (code bug).  From the initial state, `SelectShow 0`
followed by `SelectSeat 4 0` — a row index outside the 4-row grid, an
input the claim explicitly includes — makes `update` index
`seats[0][4][0]` out of bounds: the source panics (modelled `none`)
instead of returning normally.  (The `available_seats -= 1` underflow is
also reachable: the stale-seat double booking of
`C1_desktop_double_booking` books a show past its 20 seats.) -/
theorem C9_update_panics_out_of_range :
    Desk.runMsgs [.SelectShow 0, .SelectSeat 4 0] Desk.initApp = none := by
  decide

/-! ## Claim C10 -/

/-- Claim C10: the command-shell ledger is append-only.  Over any sequence
of invocations of the three registered commands, from any state, the
ledger is only ever extended (so its length never decreases and no
booking is removed) and the booked-seat list of every movie is only ever
extended (no seat once booked is freed). -/
theorem C10_ledger_append_only (cmds : List Tauri.Cmd) (s : Tauri.AppState) :
    (∃ r, (Tauri.runCmds cmds s).bookings = s.bookings ++ r) ∧
    (∀ mid, ∃ r, (Tauri.runCmds cmds s).booked mid = s.booked mid ++ r) := by
  induction cmds generalizing s with
  | nil => exact ⟨⟨[], by simp [Tauri.runCmds]⟩, fun mid => ⟨[], by simp [Tauri.runCmds]⟩⟩
  | cons c cs ih =>
    obtain ⟨⟨r₀, h₀⟩, hB⟩ := Tauri.stepCmd_mono c s
    obtain ⟨⟨r₁, h₁⟩, hB'⟩ := ih (Tauri.stepCmd c s)
    refine ⟨⟨r₀ ++ r₁, ?_⟩, fun mid => ?_⟩
    · show (Tauri.runCmds cs (Tauri.stepCmd c s)).bookings = _
      rw [h₁, h₀, List.append_assoc]
    · obtain ⟨ra, ha⟩ := hB mid
      obtain ⟨rb, hb⟩ := hB' mid
      refine ⟨ra ++ rb, ?_⟩
      show (Tauri.runCmds cs (Tauri.stepCmd c s)).booked mid = _
      rw [hb, ha, List.append_assoc]
